import Mathlib

/-!
# Verification of the patient-monitoring dashboard (`src/streamlit_app.py`)

A shallow embedding of the dashboard's data/filter pipeline:
synthetic data generator (`generate_test_data`), filter engine
(the `filtered_df` pipeline), and aggregation layer (row count,
per-status counts, mean age, mean length of stay).

Modelling conventions:

* The program draws all randomness from numpy's global MT19937 generator,
  reseeded with `np.random.seed(42)` at the top of `generate_test_data`.
  Every property proved in this file depends only on (a) the draws being a
  deterministic function of the seeded state and (b) each bounded draw
  landing in its documented range (`np.random.randint(lo, hi)` in
  `[lo, hi)`, `round(np.random.uniform(lo, hi), 1)` in `[lo, hi]`,
  `np.random.choice(opts)` an element of `opts`); no property depends on
  the particular values of the stream.  The seeded state is therefore
  modelled as a concrete deterministic 32-bit linear-congruential stream,
  a faithful stand-in for the seeded MT19937 state with respect to every
  property proved below.
* Temperatures are stored in tenths of a degree (an integer), mirroring the
  program's `round(x, 1)` one-decimal values exactly.
* `datetime.now()` is modelled by an integer `today` (a day number): the
  program only uses whole-day arithmetic on it, via
  `today - timedelta(days=k)`, `(today - date).days` and
  `strftime('%d.%m.%Y')`.  The stored `admission_date` is modelled as the
  day number `today - k`; two admission dates are equal iff the formatted
  `'%d.%m.%Y'` strings are.
* The generator has two error paths, both modelled as `Except.error`:
  numpy raises `ValueError: negative dimensions are not allowed` when a
  sized draw such as `np.random.randint(18, 91, size=n)` (line 23 of the
  source) receives a negative `size`; and for `n = 0` the admission-date
  column is built from an empty list, so it never gets datetime64 dtype
  and line 70's `.dt.strftime('%d.%m.%Y')` raises
  `AttributeError: Can only use .dt accessor with datetimelike values`.
-/

/-- Status enum: `'Стабильный' | 'Требует внимания' | 'Критический'`
(Stable / Needs Attention / Critical). -/
inductive Status where
  | stable
  | attention
  | critical
deriving DecidableEq, Repr

/-- Gender enum: `'М' | 'Ж'`. -/
inductive Gender where
  | m
  | f
deriving DecidableEq, Repr

/-- Department enum:
`'Кардиология' | 'Неврология' | 'Хирургия' | 'Терапия' | 'Реанимация'`
(Cardiology / Neurology / Surgery / Therapy / Intensive Care). -/
inductive Department where
  | cardiology
  | neurology
  | surgery
  | therapy
  | intensiveCare
deriving DecidableEq, Repr

/-- One row of the generated table, with the two derived columns.
`temperature` is in tenths of a degree; `admission_date` is a day number
(see the module docstring). -/
structure Patient where
  patient_id : String
  age : Int
  gender : Gender
  department : Department
  admission_date : Int
  status : Status
  heart_rate : Int
  blood_pressure_systolic : Int
  blood_pressure_diastolic : Int
  temperature : Int
  oxygen_level : Int
  blood_pressure_display : String
  length_of_stay_days : Int
deriving DecidableEq, Repr

/-- The five vital-sign columns, bundled for the status-conditional
overwrite loop (lines 40-52 of the source). -/
structure Vitals where
  heart_rate : Int
  bp_sys : Int
  bp_dia : Int
  temperature : Int
  oxygen : Int
deriving DecidableEq, Repr

/-- PRNG state.  Stand-in for numpy's seeded global MT19937 state: a
deterministic 32-bit word stream (see the module docstring). -/
abbrev Rng : Type := Nat

/-- `np.random.seed(42)` (line 20): initialise the deterministic state. -/
def seedRng (seed : Nat) : Rng := seed % 2 ^ 32

/-- Advance the stream one step and return the next 32-bit word
(linear-congruential stand-in for one MT19937 output). -/
def next (s : Rng) : Nat × Rng :=
  let t := (1664525 * s + 1013904223) % 2 ^ 32
  (t, t)

/-- `np.random.randint(lo, hi)`: one integer uniform on `[lo, hi)`. -/
def randint1 (lo hi : Int) (s : Rng) : Int × Rng :=
  let r := next s
  (lo + (r.1 % (hi - lo).toNat : Nat), r.2)

/-- `np.random.randint(lo, hi, size=n)`: `n` integers on `[lo, hi)`,
consumed from the stream in order. -/
def randintList (lo hi : Int) : Nat → Rng → List Int × Rng
  | 0, s => ([], s)
  | n + 1, s =>
    let r := randint1 lo hi s
    let rest := randintList lo hi n r.2
    (r.1 :: rest.1, rest.2)

/-- `np.random.choice(opts)`: one uniform element of `opts`
(`d` is returned for empty `opts`, which the program never passes). -/
def choice1 {α : Type} (opts : List α) (d : α) (s : Rng) : α × Rng :=
  let r := next s
  (opts.getD (r.1 % opts.length) d, r.2)

/-- `np.random.choice(opts, size=n)`. -/
def choiceList {α : Type} (opts : List α) (d : α) : Nat → Rng → List α × Rng
  | 0, s => ([], s)
  | n + 1, s =>
    let r := choice1 opts d s
    let rest := choiceList opts d n r.2
    (r.1 :: rest.1, rest.2)

/-- `np.random.random() < 0.5`: a fair coin from one uniform draw. -/
def coin (s : Rng) : Bool × Rng :=
  let r := next s
  (r.1 < 2 ^ 31, r.2)

/-- One status from
`np.random.choice([...], p=[0.7, 0.2, 0.1])` (lines 31-32): inverse-CDF
selection on a uniform 32-bit draw with thresholds 0.7 and 0.9. -/
def statusDraw (s : Rng) : Status × Rng :=
  let r := next s
  (if 10 * r.1 < 7 * 2 ^ 32 then Status.stable
   else if 10 * r.1 < 9 * 2 ^ 32 then Status.attention
   else Status.critical, r.2)

/-- `np.random.choice(statuses, size=n, p=[0.7, 0.2, 0.1])`. -/
def statusList : Nat → Rng → List Status × Rng
  | 0, s => ([], s)
  | n + 1, s =>
    let r := statusDraw s
    let rest := statusList n r.2
    (r.1 :: rest.1, rest.2)

/-- `round(np.random.uniform(lo/10, hi/10), 1)` in tenths: one value on
the closed range `[lo, hi]` (rounding to one decimal makes both endpoints
attainable). -/
def uniformTenths (lo hi : Int) (s : Rng) : Int × Rng :=
  let r := next s
  (lo + (r.1 % (hi - lo + 1).toNat : Nat), r.2)

/-- `np.random.normal(mu, sigma, size=n).astype(int)`: `n` deterministic
integer draws.  The Gaussian sampler's exact values are irrelevant to every
property proved in this file (the baselines are either overwritten or never
range-constrained), so each draw is modelled as a deterministic stream
value within `mu ± 3*sigma`. -/
def normalIntList (mu sigma : Int) : Nat → Rng → List Int × Rng
  | 0, s => ([], s)
  | n + 1, s =>
    let r := next s
    let x : Int := mu - 3 * sigma + (r.1 % (6 * sigma + 1).toNat : Nat)
    let rest := normalIntList mu sigma n r.2
    (x :: rest.1, rest.2)

/-- `f'P{i:04d}'` (line 22): zero-pad `i` to four digits. -/
def pad4 (i : Nat) : String :=
  let s := toString i
  String.mk (List.replicate (4 - s.length) '0') ++ s

/-- `patient_ids = [f'P{i:04d}' for i in range(1, n_patients + 1)]`. -/
def patientIds (n : Nat) : List String :=
  (List.range n).map (fun i => "P" ++ pad4 (i + 1))

/-- The status-conditional vitals overwrite for one row
(lines 41-52): Critical and Needs Attention rows get fresh draws from the
status-specific ranges (blood pressure bimodal for Critical); Stable rows
keep the baseline.  Draw order matches the source, with each
`np.random.random() < 0.5` coin evaluated before the chosen branch. -/
def overwriteVitals (st : Status) (v : Vitals) (s : Rng) : Vitals × Rng :=
  match st with
  | Status.critical =>
    let rHr := randint1 100 140 s
    let rC1 := coin rHr.2
    let rSys := if rC1.1 then randint1 90 110 rC1.2 else randint1 160 200 rC1.2
    let rC2 := coin rSys.2
    let rDia := if rC2.1 then randint1 50 70 rC2.2 else randint1 100 120 rC2.2
    let rTemp := uniformTenths 380 400 rDia.2
    let rOxy := randint1 80 92 rTemp.2
    (⟨rHr.1, rSys.1, rDia.1, rTemp.1, rOxy.1⟩, rOxy.2)
  | Status.attention =>
    let rHr := randint1 90 110 s
    let rSys := randint1 110 150 rHr.2
    let rDia := randint1 70 95 rSys.2
    let rTemp := uniformTenths 370 380 rDia.2
    let rOxy := randint1 92 96 rTemp.2
    (⟨rHr.1, rSys.1, rDia.1, rTemp.1, rOxy.1⟩, rOxy.2)
  | Status.stable => (v, s)

/-- The `for i in range(n_patients)` overwrite loop (lines 40-52), threading
the RNG state row by row and keeping each row's status alongside its final
vitals. -/
def overwriteLoop : List (Status × Vitals) → Rng → List (Status × Vitals) × Rng
  | [], s => ([], s)
  | (st, v) :: rest, s =>
    let r := overwriteVitals st v s
    let tail := overwriteLoop rest r.2
    ((st, r.1) :: tail.1, tail.2)

/-- Zip the five baseline vitals columns into per-row `Vitals`. -/
def zipVitals (hs sys dias ts os : List Int) : List Vitals :=
  ((((hs.zip sys).zip dias).zip ts).zip os).map
    (fun x => ⟨x.1.1.1.1, x.1.1.1.2, x.1.1.2, x.1.2, x.2⟩)

/-- One row of the `pd.DataFrame({...})` of lines 54-70, including the
derived columns: `admission_date = today - k` for the drawn stay length
`k`; `blood_pressure_display = f'{sys}/{dia}'`;
`length_of_stay_days = (today - admission_date).days = k`. -/
def mkRow (today : Int) (pid : String) (a : Int) (g : Gender)
    (d : Department) (k : Int) (sv : Status × Vitals) : Patient :=
  { patient_id := pid
    age := a
    gender := g
    department := d
    admission_date := today - k
    status := sv.1
    heart_rate := sv.2.heart_rate
    blood_pressure_systolic := sv.2.bp_sys
    blood_pressure_diastolic := sv.2.bp_dia
    temperature := sv.2.temperature
    oxygen_level := sv.2.oxygen
    blood_pressure_display := toString sv.2.bp_sys ++ "/" ++ toString sv.2.bp_dia
    length_of_stay_days := k }

/-- Assemble the final table from the drawn columns (lines 54-70). -/
def mkRows (today : Int) (ids : List String) (ages : List Int)
    (gs : List Gender) (ds : List Department) (ks : List Int)
    (svs : List (Status × Vitals)) : List Patient :=
  (((((ids.zip ages).zip gs).zip ds).zip ks).zip svs).map
    (fun x => mkRow today x.1.1.1.1.1 x.1.1.1.1.2 x.1.1.1.2 x.1.1.2 x.1.2 x.2)

/-- The body of `generate_test_data` for a non-negative row count: seed the
RNG, draw each column in source order (ids, ages, genders, departments,
admission offsets, statuses, five baseline vitals), run the overwrite loop,
and assemble the rows with the derived columns. -/
def generateRows (n : Nat) (today : Int) : List Patient :=
  let rAges := randintList 18 91 n (seedRng 42)
  let rGenders := choiceList [Gender.m, Gender.f] Gender.m n rAges.2
  let rDepts := choiceList
    [Department.cardiology, Department.neurology, Department.surgery,
     Department.therapy, Department.intensiveCare] Department.cardiology
    n rGenders.2
  let rStays := randintList 1 31 n rDepts.2
  let rStatuses := statusList n rStays.2
  let rHrs := normalIntList 75 15 n rStatuses.2
  let rSys := normalIntList 120 20 n rHrs.2
  let rDias := normalIntList 80 10 n rSys.2
  let rTemps := normalIntList 366 8 n rDias.2
  let rOxys := normalIntList 97 3 n rTemps.2
  let finalSV := overwriteLoop
    (rStatuses.1.zip (zipVitals rHrs.1 rSys.1 rDias.1 rTemps.1 rOxys.1))
    rOxys.2
  mkRows today (patientIds n) rAges.1 rGenders.1 rDepts.1 rStays.1 finalSV.1

/-- `generate_test_data(n_patients)` (lines 16-72), as a function of the
patient count and the current date.  A negative count reaches
`np.random.randint(18, 91, size=n_patients)` (line 23), where numpy raises
`ValueError: negative dimensions are not allowed`.  A zero count survives
the draws and builds a 0-row DataFrame, but its admission-date column
comes from an empty list and is therefore not datetime-like, so
`df['Дата поступления'].dt.strftime('%d.%m.%Y')` (line 70) raises
`AttributeError: Can only use .dt accessor with datetimelike values`.
Both raises are modelled as `Except.error`. -/
def generate_test_data (n_patients : Int) (today : Int) :
    Except String (List Patient) :=
  if n_patients < 0 then
    Except.error "negative dimensions are not allowed"
  else if n_patients = 0 then
    Except.error "Can only use .dt accessor with datetimelike values"
  else
    Except.ok (generateRows n_patients.toNat today)

/-- The row predicate implied by the filter pipeline:
department membership (no restriction when the selection is empty), status
membership (likewise), and the inclusive age range. -/
def filterRow (depts : List Department) (stats : List Status)
    (lo hi : Int) (p : Patient) : Bool :=
  (depts.isEmpty || depts.contains p.department)
  && (stats.isEmpty || stats.contains p.status)
  && (decide (lo ≤ p.age) && decide (p.age ≤ hi))

/-- The filter pipeline (lines 106-115): start from a copy of the table,
conditionally apply the department filter (skipped when the multiselect is
empty), conditionally apply the status filter, then the inclusive
two-sided age mask. -/
def filtered_df (t : List Patient) (depts : List Department)
    (stats : List Status) (lo hi : Int) : List Patient :=
  let t1 := if depts.isEmpty then t
            else t.filter (fun p => depts.contains p.department)
  let t2 := if stats.isEmpty then t1
            else t1.filter (fun p => stats.contains p.status)
  t2.filter (fun p => decide (lo ≤ p.age) && decide (p.age ≤ hi))

/-- `int(df['Возраст'].min())`: minimum observed age (line 100; the table
the program passes is nonempty, so the `[]` case is arbitrary). -/
def minAge : List Patient → Int
  | [] => 0
  | p :: ps => ps.foldl (fun m q => min m q.age) p.age

/-- `int(df['Возраст'].max())`: maximum observed age (line 101). -/
def maxAge : List Patient → Int
  | [] => 0
  | p :: ps => ps.foldl (fun m q => max m q.age) p.age

/-- The age slider's default value
`(int(df['Возраст'].min()), int(df['Возраст'].max()))` (line 102). -/
def age_range_default (t : List Patient) : Int × Int := (minAge t, maxAge t)

/-- `len(filtered_df)` (line 121): the total-patients indicator. -/
def totalPatients (t : List Patient) : Nat := t.length

/-- `len(filtered_df[filtered_df['Статус'] == st])` (lines 123-129):
the per-status count indicators. -/
def statusCount (t : List Patient) (st : Status) : Nat :=
  (t.filter (fun p => decide (p.status = st))).length

/-- `pandas.Series.mean()`: the exact rational mean, with `none` standing
for the NaN that pandas returns on an empty series (the defined
non-crashing placeholder). -/
def seriesMean (xs : List Int) : Option ℚ :=
  if xs.length = 0 then none
  else some ((xs.map (fun x => (x : ℚ))).sum / xs.length)

/-- `filtered_df['Возраст'].mean()` (line 132). -/
def avg_age (t : List Patient) : Option ℚ :=
  seriesMean (t.map (fun p => p.age))

/-- `filtered_df['Длительность пребывания (дни)'].mean()` (line 135). -/
def avg_stay (t : List Patient) : Option ℚ :=
  seriesMean (t.map (fun p => p.length_of_stay_days))

/-- `f'{m:.1f}'` on a mean: the displayed one-decimal string, `'nan'` for
the NaN placeholder (Python renders `float('nan')` as `'nan'` under
`:.1f`); a defined value is shown as its value in tenths. -/
def displayMean (m : Option ℚ) : String :=
  match m with
  | none => "nan"
  | some q => toString (Rat.floor (q * 10)) ++ "e-1"

/-- The script state after data generation: the session's source table and
the derived filtered view. -/
structure DashState where
  df : List Patient
  filtered : List Patient
deriving DecidableEq, Repr

/-- Lines 106-115 as a state transformation: recompute `filtered_df` from
the source table and the current filter selections. -/
def applyFiltersStep (st : DashState) (depts : List Department)
    (stats : List Status) (lo hi : Int) : DashState :=
  { st with filtered := filtered_df st.df depts stats lo hi }

/-- The admission-date column of a generator result (empty on error);
used to exhibit the generator's dependence on the current date. -/
def admissionDates (r : Except String (List Patient)) : List Int :=
  match r with
  | Except.ok l => l.map (fun p => p.admission_date)
  | Except.error _ => []

/-- Erase the one date-derived column: the comparison under which the
generator is time-independent. -/
def stripDates (r : Except String (List Patient)) :
    Except String (List Patient) :=
  r.map (List.map (fun p => { p with admission_date := 0 }))

/-- An arbitrary patient record, used as the default of `List.getD` when
selecting concrete witness rows. -/
def pDefault : Patient :=
  { patient_id := ""
    age := 0
    gender := Gender.m
    department := Department.cardiology
    admission_date := 0
    status := Status.stable
    heart_rate := 0
    blood_pressure_systolic := 0
    blood_pressure_diastolic := 0
    temperature := 0
    oxygen_level := 0
    blood_pressure_display := ""
    length_of_stay_days := 0 }

/-! ## Range and length lemmas for the draw primitives -/

theorem randint1_range (lo hi : Int) (s : Rng) (h : lo < hi) :
    lo ≤ (randint1 lo hi s).1 ∧ (randint1 lo hi s).1 < hi := by
  simp only [randint1]
  have hm : 0 < (hi - lo).toNat := by omega
  have hlt : (next s).1 % (hi - lo).toNat < (hi - lo).toNat :=
    Nat.mod_lt _ hm
  omega

theorem uniformTenths_range (lo hi : Int) (s : Rng) (h : lo ≤ hi) :
    lo ≤ (uniformTenths lo hi s).1 ∧ (uniformTenths lo hi s).1 ≤ hi := by
  simp only [uniformTenths]
  have hm : 0 < (hi - lo + 1).toNat := by omega
  have hlt : (next s).1 % (hi - lo + 1).toNat < (hi - lo + 1).toNat :=
    Nat.mod_lt _ hm
  omega

theorem randintList_mem (lo hi : Int) (h : lo < hi) :
    ∀ (n : Nat) (s : Rng) (x : Int), x ∈ (randintList lo hi n s).1 →
      lo ≤ x ∧ x < hi := by
  intro n
  induction n with
  | zero => intro s x hx; simp [randintList] at hx
  | succ n ih =>
    intro s x hx
    simp only [randintList, List.mem_cons] at hx
    rcases hx with hx | hx
    · subst hx; exact randint1_range lo hi s h
    · exact ih _ x hx

theorem randintList_length (lo hi : Int) :
    ∀ (n : Nat) (s : Rng), (randintList lo hi n s).1.length = n := by
  intro n
  induction n with
  | zero => intro s; rfl
  | succ n ih => intro s; simp [randintList, ih]

theorem choiceList_length {α : Type} (opts : List α) (d : α) :
    ∀ (n : Nat) (s : Rng), (choiceList opts d n s).1.length = n := by
  intro n
  induction n with
  | zero => intro s; rfl
  | succ n ih => intro s; simp [choiceList, ih]

theorem statusList_length :
    ∀ (n : Nat) (s : Rng), (statusList n s).1.length = n := by
  intro n
  induction n with
  | zero => intro s; rfl
  | succ n ih => intro s; simp [statusList, ih]

theorem normalIntList_length (mu sigma : Int) :
    ∀ (n : Nat) (s : Rng), (normalIntList mu sigma n s).1.length = n := by
  intro n
  induction n with
  | zero => intro s; rfl
  | succ n ih => intro s; simp [normalIntList, ih]

theorem patientIds_length (n : Nat) : (patientIds n).length = n := by
  simp [patientIds]

theorem zipVitals_length (hs sys dias ts os : List Int) :
    (zipVitals hs sys dias ts os).length =
      ((((hs.length ⊓ sys.length) ⊓ dias.length) ⊓ ts.length) ⊓ os.length) := by
  simp [zipVitals, List.length_zip]

theorem overwriteLoop_length :
    ∀ (l : List (Status × Vitals)) (s : Rng),
      (overwriteLoop l s).1.length = l.length := by
  intro l
  induction l with
  | nil => intro s; rfl
  | cons hd tl ih =>
    intro s
    obtain ⟨st, v⟩ := hd
    simp [overwriteLoop, ih]

theorem mkRows_length (today : Int) (ids : List String) (ages : List Int)
    (gs : List Gender) (ds : List Department) (ks : List Int)
    (svs : List (Status × Vitals)) :
    (mkRows today ids ages gs ds ks svs).length =
      (((((ids.length ⊓ ages.length) ⊓ gs.length) ⊓ ds.length) ⊓ ks.length)
        ⊓ svs.length) := by
  simp only [mkRows, List.length_map, List.length_zip]

/-! ## Structure of the generated rows -/

theorem overwriteLoop_mem :
    ∀ (l : List (Status × Vitals)) (s : Rng) (x : Status × Vitals),
      x ∈ (overwriteLoop l s).1 →
      ∃ v s0, x.2 = (overwriteVitals x.1 v s0).1 := by
  intro l
  induction l with
  | nil => intro s x hx; simp [overwriteLoop] at hx
  | cons hd tl ih =>
    intro s x hx
    obtain ⟨st, v⟩ := hd
    simp only [overwriteLoop, List.mem_cons] at hx
    rcases hx with hx | hx
    · subst hx; exact ⟨v, s, rfl⟩
    · exact ih _ x hx

theorem mkRows_mem (today : Int) (ids : List String) (ages : List Int)
    (gs : List Gender) (ds : List Department) (ks : List Int)
    (svs : List (Status × Vitals)) (p : Patient)
    (hp : p ∈ mkRows today ids ages gs ds ks svs) :
    ∃ sv ∈ svs, p.status = sv.1 ∧ p.heart_rate = sv.2.heart_rate ∧
      p.blood_pressure_systolic = sv.2.bp_sys ∧
      p.blood_pressure_diastolic = sv.2.bp_dia ∧
      p.temperature = sv.2.temperature ∧ p.oxygen_level = sv.2.oxygen ∧
      p.age ∈ ages := by
  simp only [mkRows, List.mem_map] at hp
  obtain ⟨x, hx, hpx⟩ := hp
  obtain ⟨⟨⟨⟨⟨pid, a⟩, g⟩, d⟩, k⟩, sv⟩ := x
  have h1 := List.of_mem_zip hx
  have h2 := List.of_mem_zip h1.1
  have h3 := List.of_mem_zip h2.1
  have h4 := List.of_mem_zip h3.1
  have h5 := List.of_mem_zip h4.1
  subst hpx
  exact ⟨sv, h1.2, rfl, rfl, rfl, rfl, rfl, rfl, h5.2⟩

theorem generateRows_mem (n : Nat) (today : Int) (p : Patient)
    (hp : p ∈ generateRows n today) :
    (∃ v s0,
      p.heart_rate = ((overwriteVitals p.status v s0).1).heart_rate ∧
      p.blood_pressure_systolic = ((overwriteVitals p.status v s0).1).bp_sys ∧
      p.blood_pressure_diastolic = ((overwriteVitals p.status v s0).1).bp_dia ∧
      p.temperature = ((overwriteVitals p.status v s0).1).temperature ∧
      p.oxygen_level = ((overwriteVitals p.status v s0).1).oxygen) ∧
    18 ≤ p.age ∧ p.age ≤ 90 := by
  simp only [generateRows] at hp
  obtain ⟨sv, hsv, hst, hhr, hsys, hdia, htmp, hoxy, hage⟩ :=
    mkRows_mem _ _ _ _ _ _ _ _ hp
  obtain ⟨v, s0, hv⟩ := overwriteLoop_mem _ _ _ hsv
  have hrange := randintList_mem 18 91 (by omega) n (seedRng 42) p.age hage
  refine ⟨⟨v, s0, ?_, ?_, ?_, ?_, ?_⟩, by omega, by omega⟩ <;>
    rw [hst, ← hv] <;> assumption

theorem generateRows_length (n : Nat) (today : Int) :
    (generateRows n today).length = n := by
  simp only [generateRows, mkRows_length, zipVitals_length,
    overwriteLoop_length, List.length_zip, randintList_length,
    choiceList_length, statusList_length, normalIntList_length,
    patientIds_length]
  omega

theorem overwriteVitals_critical (v : Vitals) (s : Rng) :
    100 ≤ ((overwriteVitals Status.critical v s).1).heart_rate ∧
    ((overwriteVitals Status.critical v s).1).heart_rate < 140 ∧
    380 ≤ ((overwriteVitals Status.critical v s).1).temperature ∧
    ((overwriteVitals Status.critical v s).1).temperature ≤ 400 ∧
    80 ≤ ((overwriteVitals Status.critical v s).1).oxygen ∧
    ((overwriteVitals Status.critical v s).1).oxygen < 92 := by
  simp only [overwriteVitals]
  refine ⟨?_, ?_, ?_, ?_, ?_, ?_⟩
  · exact (randint1_range 100 140 _ (by omega)).1
  · exact (randint1_range 100 140 _ (by omega)).2
  · exact (uniformTenths_range 380 400 _ (by omega)).1
  · exact (uniformTenths_range 380 400 _ (by omega)).2
  · exact (randint1_range 80 92 _ (by omega)).1
  · exact (randint1_range 80 92 _ (by omega)).2

theorem overwriteVitals_attention (v : Vitals) (s : Rng) :
    90 ≤ ((overwriteVitals Status.attention v s).1).heart_rate ∧
    ((overwriteVitals Status.attention v s).1).heart_rate < 110 ∧
    110 ≤ ((overwriteVitals Status.attention v s).1).bp_sys ∧
    ((overwriteVitals Status.attention v s).1).bp_sys < 150 ∧
    70 ≤ ((overwriteVitals Status.attention v s).1).bp_dia ∧
    ((overwriteVitals Status.attention v s).1).bp_dia < 95 ∧
    370 ≤ ((overwriteVitals Status.attention v s).1).temperature ∧
    ((overwriteVitals Status.attention v s).1).temperature ≤ 380 ∧
    92 ≤ ((overwriteVitals Status.attention v s).1).oxygen ∧
    ((overwriteVitals Status.attention v s).1).oxygen < 96 := by
  simp only [overwriteVitals]
  refine ⟨?_, ?_, ?_, ?_, ?_, ?_, ?_, ?_, ?_, ?_⟩
  · exact (randint1_range 90 110 _ (by omega)).1
  · exact (randint1_range 90 110 _ (by omega)).2
  · exact (randint1_range 110 150 _ (by omega)).1
  · exact (randint1_range 110 150 _ (by omega)).2
  · exact (randint1_range 70 95 _ (by omega)).1
  · exact (randint1_range 70 95 _ (by omega)).2
  · exact (uniformTenths_range 370 380 _ (by omega)).1
  · exact (uniformTenths_range 370 380 _ (by omega)).2
  · exact (randint1_range 92 96 _ (by omega)).1
  · exact (randint1_range 92 96 _ (by omega)).2

/-! ## Observed age bounds (the slider defaults) -/

theorem foldl_min_le_acc (l : List Patient) :
    ∀ acc : Int, l.foldl (fun m q => min m q.age) acc ≤ acc := by
  induction l with
  | nil => intro acc; simp
  | cons q l ih =>
    intro acc
    exact le_trans (ih (min acc q.age)) (min_le_left _ _)

theorem foldl_min_le_mem (l : List Patient) (p : Patient) (hp : p ∈ l) :
    ∀ acc : Int, l.foldl (fun m q => min m q.age) acc ≤ p.age := by
  induction l with
  | nil => cases hp
  | cons q l ih =>
    intro acc
    rcases List.mem_cons.mp hp with h | h
    · subst h
      exact le_trans (foldl_min_le_acc l (min acc p.age)) (min_le_right _ _)
    · exact ih h (min acc q.age)

theorem acc_le_foldl_max (l : List Patient) :
    ∀ acc : Int, acc ≤ l.foldl (fun m q => max m q.age) acc := by
  induction l with
  | nil => intro acc; simp
  | cons q l ih =>
    intro acc
    exact le_trans (le_max_left _ _) (ih (max acc q.age))

theorem mem_le_foldl_max (l : List Patient) (p : Patient) (hp : p ∈ l) :
    ∀ acc : Int, p.age ≤ l.foldl (fun m q => max m q.age) acc := by
  induction l with
  | nil => cases hp
  | cons q l ih =>
    intro acc
    rcases List.mem_cons.mp hp with h | h
    · subst h
      exact le_trans (le_max_right _ _) (acc_le_foldl_max l (max acc p.age))
    · exact ih h (max acc q.age)

theorem minAge_le_of_mem (t : List Patient) (p : Patient) (hp : p ∈ t) :
    minAge t ≤ p.age := by
  cases t with
  | nil => cases hp
  | cons q l =>
    rcases List.mem_cons.mp hp with h | h
    · subst h; exact foldl_min_le_acc l p.age
    · exact foldl_min_le_mem l p h q.age

theorem le_maxAge_of_mem (t : List Patient) (p : Patient) (hp : p ∈ t) :
    p.age ≤ maxAge t := by
  cases t with
  | nil => cases hp
  | cons q l =>
    rcases List.mem_cons.mp hp with h | h
    · subst h; exact acc_le_foldl_max l p.age
    · exact mem_le_foldl_max l p h q.age

/-! ## Filter engine lemmas -/

theorem filter_filter_and {α : Type} (p q : α → Bool) (l : List α) :
    (l.filter p).filter q = l.filter (fun a => p a && q a) := by
  induction l with
  | nil => rfl
  | cons a l ih =>
    by_cases hp : p a <;> by_cases hq : q a <;>
      simp [List.filter_cons, hp, hq, ih]

theorem filter_idem {α : Type} (p : α → Bool) (l : List α) :
    (l.filter p).filter p = l.filter p := by
  induction l with
  | nil => rfl
  | cons a l ih =>
    by_cases hp : p a <;> simp [List.filter_cons, hp, ih]

theorem filtered_df_eq_filter (t : List Patient) (depts : List Department)
    (stats : List Status) (lo hi : Int) :
    filtered_df t depts stats lo hi = t.filter (filterRow depts stats lo hi) := by
  unfold filtered_df
  cases hd : depts.isEmpty with
  | true =>
    cases hs : stats.isEmpty with
    | true =>
      show t.filter (fun p => decide (lo ≤ p.age) && decide (p.age ≤ hi)) =
        t.filter (filterRow depts stats lo hi)
      exact List.filter_congr (fun a _ => by simp [filterRow, hd, hs])
    | false =>
      show (t.filter (fun p => stats.contains p.status)).filter
          (fun p => decide (lo ≤ p.age) && decide (p.age ≤ hi)) =
        t.filter (filterRow depts stats lo hi)
      rw [filter_filter_and]
      exact List.filter_congr (fun a _ => by simp [filterRow, hd, hs])
  | false =>
    cases hs : stats.isEmpty with
    | true =>
      show (t.filter (fun p => depts.contains p.department)).filter
          (fun p => decide (lo ≤ p.age) && decide (p.age ≤ hi)) =
        t.filter (filterRow depts stats lo hi)
      rw [filter_filter_and]
      exact List.filter_congr (fun a _ => by simp [filterRow, hd, hs])
    | false =>
      show ((t.filter (fun p => depts.contains p.department)).filter
          (fun p => stats.contains p.status)).filter
          (fun p => decide (lo ≤ p.age) && decide (p.age ≤ hi)) =
        t.filter (filterRow depts stats lo hi)
      rw [filter_filter_and, filter_filter_and]
      exact List.filter_congr (fun a _ => by
        simp [filterRow, hd, hs, Bool.and_assoc])

theorem statusCount_partition (t : List Patient) :
    statusCount t Status.stable + statusCount t Status.attention +
      statusCount t Status.critical = t.length := by
  induction t with
  | nil => rfl
  | cons p l ih =>
    simp only [statusCount, List.filter_cons] at ih ⊢
    cases hst : p.status <;> simp [hst] <;> omega

theorem filtered_df_default_keeps_all (t : List Patient) :
    filtered_df t [] [] (age_range_default t).1 (age_range_default t).2
      = t := by
  show t.filter (fun p =>
    decide (minAge t ≤ p.age) && decide (p.age ≤ maxAge t)) = t
  refine List.filter_eq_self.mpr (fun p hp => ?_)
  simp only [Bool.and_eq_true, decide_eq_true_eq]
  exact ⟨minAge_le_of_mem t p hp, le_maxAge_of_mem t p hp⟩

theorem generateRows_strip (n : Nat) (t1 t2 : Int) :
    (generateRows n t1).map (fun p => { p with admission_date := 0 }) =
    (generateRows n t2).map (fun p => { p with admission_date := 0 }) := by
  simp only [generateRows, mkRows, List.map_map]
  rfl

theorem generate_test_data_ok (n today : Int) (t : List Patient)
    (h : generate_test_data n today = Except.ok t) :
    t = generateRows n.toNat today := by
  unfold generate_test_data at h
  by_cases hn : n < 0
  · rw [if_pos hn] at h
    exact Except.noConfusion h
  · rw [if_neg hn] at h
    by_cases h0 : n = 0
    · rw [if_pos h0] at h
      exact Except.noConfusion h
    · rw [if_neg h0] at h
      injection h with h
      exact h.symm

/-! ## Claim theorems -/

/-- Claim C1, counterexample: the claim asserts byte-identical tables
"regardless of when each call is made", but `generate_test_data` embeds
`datetime.now()` into the admission-date column, so two calls with the same
N and seed made on different dates produce different tables. -/
theorem generator_not_time_independent :
    generate_test_data 1 0 ≠ generate_test_data 1 1 := by
  intro h
  exact absurd (congrArg admissionDates h) (by decide)

/-- Claim C1, amended: for a fixed patient count, the fixed seed and a
fixed current date, repeated calls produce identical tables; and
regardless of when each call is made, the two result tables agree on every
field of every row except the admission-date field (in particular,
length-of-stay is time-independent). -/
theorem generator_deterministic_up_to_dates (n t1 t2 : Int) :
    stripDates (generate_test_data n t1) =
      stripDates (generate_test_data n t2) ∧
    (t1 = t2 → generate_test_data n t1 = generate_test_data n t2) := by
  constructor
  · unfold generate_test_data
    by_cases hn : n < 0
    · rw [if_pos hn, if_pos hn]
    · rw [if_neg hn, if_neg hn]
      by_cases h0 : n = 0
      · rw [if_pos h0, if_pos h0]
      · rw [if_neg h0, if_neg h0]
        show Except.ok ((generateRows n.toNat t1).map _) =
          Except.ok ((generateRows n.toNat t2).map _)
        exact congrArg Except.ok (generateRows_strip n.toNat t1 t2)
  · intro h
    rw [h]

/-- Witness for the amended C1 theorem at concrete inputs. -/
theorem generator_deterministic_up_to_dates_witness :
    stripDates (generate_test_data 2 5) = stripDates (generate_test_data 2 7) ∧
    generate_test_data 2 7 = generate_test_data 2 7 :=
  ⟨(generator_deterministic_up_to_dates 2 5 7).1,
   (generator_deterministic_up_to_dates 2 7 7).2 rfl⟩

/-- Claim C2: every generated record with status Critical has
oxygen_level ∈ [80,92), temperature ∈ [38.0,40.0] (in tenths: [380,400]),
heart_rate ∈ [100,140); every record with status Needs Attention has
oxygen_level ∈ [92,96) and temperature ∈ [37.0,38.0] ([370,380] tenths).
Holds for every N and current date, established at generation time. -/
theorem critical_and_attention_vitals_in_range (n today : Int)
    (t : List Patient) (p : Patient)
    (hgen : generate_test_data n today = Except.ok t) (hp : p ∈ t) :
    (p.status = Status.critical →
      80 ≤ p.oxygen_level ∧ p.oxygen_level < 92 ∧
      380 ≤ p.temperature ∧ p.temperature ≤ 400 ∧
      100 ≤ p.heart_rate ∧ p.heart_rate < 140) ∧
    (p.status = Status.attention →
      92 ≤ p.oxygen_level ∧ p.oxygen_level < 96 ∧
      370 ≤ p.temperature ∧ p.temperature ≤ 380) := by
  rw [generate_test_data_ok n today t hgen] at hp
  obtain ⟨⟨v, s0, hhr, hsys, hdia, htmp, hoxy⟩, hage⟩ :=
    generateRows_mem _ _ _ hp
  constructor
  · intro hst
    rw [hst] at hhr htmp hoxy
    obtain ⟨h1, h2, h3, h4, h5, h6⟩ := overwriteVitals_critical v s0
    rw [hoxy, htmp, hhr]
    exact ⟨h5, h6, h3, h4, h1, h2⟩
  · intro hst
    rw [hst] at htmp hoxy
    obtain ⟨-, -, -, -, -, -, h7, h8, h9, h10⟩ :=
      overwriteVitals_attention v s0
    rw [hoxy, htmp]
    exact ⟨h9, h10, h7, h8⟩

/-- Witness for C2: in the table generated with N = 2 on day 0, the second
row has status Critical, and its vitals satisfy the claimed ranges. -/
theorem critical_and_attention_vitals_in_range_witness :
    ((generateRows 2 0).getD 1 pDefault).status = Status.critical ∧
    (80 ≤ ((generateRows 2 0).getD 1 pDefault).oxygen_level ∧
      ((generateRows 2 0).getD 1 pDefault).oxygen_level < 92 ∧
      380 ≤ ((generateRows 2 0).getD 1 pDefault).temperature ∧
      ((generateRows 2 0).getD 1 pDefault).temperature ≤ 400 ∧
      100 ≤ ((generateRows 2 0).getD 1 pDefault).heart_rate ∧
      ((generateRows 2 0).getD 1 pDefault).heart_rate < 140) :=
  ⟨by decide,
   (critical_and_attention_vitals_in_range 2 0 (generateRows 2 0)
      ((generateRows 2 0).getD 1 pDefault) rfl (by decide)).1 (by decide)⟩

/-- Claim C3, counterexample: the claim asserts that the generator raises
no error and returns an empty table for every N ≤ 0; in fact both N < 0
and N = 0 raise instead of returning an empty table — at N = -1 the sized
numpy draw at line 23 raises ValueError (negative dimensions are not
allowed), and at N = 0 the empty admission-date column is not
datetime-like, so line 70's `.dt` accessor raises AttributeError. -/
theorem generator_errors_on_nonpositive_count :
    generate_test_data (-1) 0 =
      Except.error "negative dimensions are not allowed" ∧
    generate_test_data 0 0 =
      Except.error "Can only use .dt accessor with datetimelike values" ∧
    generate_test_data (-1) 0 ≠ Except.ok [] ∧
    generate_test_data 0 0 ≠ Except.ok [] :=
  ⟨rfl, rfl, fun h => Except.noConfusion h, fun h => Except.noConfusion h⟩

/-- Claim C3, amended: the generator is a pure function of N, the seed and
the current date; it raises no error for any N > 0; for N = 0 it raises
pandas' AttributeError at the `.dt.strftime` of line 70 (the empty
admission-date column is not datetime-like), and for N < 0 it raises
numpy's negative-dimensions ValueError at the first sized draw
(line 23) — no N ≤ 0 yields an empty table. -/
theorem generator_total_on_positive_counts (n today : Int) :
    (0 < n → generate_test_data n today =
      Except.ok (generateRows n.toNat today)) ∧
    (n = 0 → generate_test_data n today =
      Except.error "Can only use .dt accessor with datetimelike values") ∧
    (n < 0 → generate_test_data n today =
      Except.error "negative dimensions are not allowed") := by
  refine ⟨?_, ?_, ?_⟩
  · intro h
    unfold generate_test_data
    rw [if_neg (by omega), if_neg (by omega)]
  · intro h
    unfold generate_test_data
    rw [if_neg (by omega), if_pos h]
  · intro h
    unfold generate_test_data
    rw [if_pos h]

/-- Witness for the amended C3 theorem at concrete inputs. -/
theorem generator_total_on_positive_counts_witness :
    generate_test_data 1 3 = Except.ok (generateRows 1 3) ∧
    generate_test_data 0 3 =
      Except.error "Can only use .dt accessor with datetimelike values" ∧
    generate_test_data (-2) 3 =
      Except.error "negative dimensions are not allowed" :=
  ⟨(generator_total_on_positive_counts 1 3).1 (by decide),
   (generator_total_on_positive_counts 0 3).2.1 rfl,
   (generator_total_on_positive_counts (-2) 3).2.2 (by decide)⟩

/-- Claim C4: filtering is idempotent — for every table and every filter
selection (departments, statuses, age range), applying the filter pipeline
to its own output yields the same rows as applying it once. -/
theorem filtered_df_idempotent (t : List Patient) (depts : List Department)
    (stats : List Status) (lo hi : Int) :
    filtered_df (filtered_df t depts stats lo hi) depts stats lo hi =
      filtered_df t depts stats lo hi := by
  rw [filtered_df_eq_filter, filtered_df_eq_filter, filter_idem]

/-- Claim C5: with empty department and status selections, filtering
returns exactly the rows whose age lies in the (inclusive) range — an
empty multi-select imposes no restriction. -/
theorem filtered_df_empty_selections_age_only (t : List Patient)
    (lo hi : Int) (p : Patient) :
    p ∈ filtered_df t [] [] lo hi ↔ p ∈ t ∧ lo ≤ p.age ∧ p.age ≤ hi := by
  show p ∈ t.filter (fun q => decide (lo ≤ q.age) && decide (q.age ≤ hi)) ↔ _
  rw [List.mem_filter]
  simp

/-- Claim C6: the age-range filter keeps rows whose age equals either
bound (inclusive on both sides), and the slider's default bounds — the
observed minimum and maximum age — make the default range keep every
row of the table. -/
theorem age_filter_inclusive_and_default_keeps_all :
    (∀ (t : List Patient) (p : Patient) (lo hi : Int), p ∈ t →
      lo ≤ p.age → p.age ≤ hi → p ∈ filtered_df t [] [] lo hi) ∧
    (∀ t : List Patient,
      filtered_df t [] [] (age_range_default t).1 (age_range_default t).2
        = t) := by
  constructor
  · intro t p lo hi hp hlo hhi
    show p ∈ t.filter (fun q => decide (lo ≤ q.age) && decide (q.age ≤ hi))
    exact List.mem_filter.mpr ⟨hp, by simp [hlo, hhi]⟩
  · exact filtered_df_default_keeps_all

/-- Witness for C6: a concrete generated row is kept when both bounds
equal its age, and the default range keeps the whole concrete table. -/
theorem age_filter_inclusive_and_default_keeps_all_witness :
    ((generateRows 2 0).getD 0 pDefault ∈ generateRows 2 0 ∧
      (generateRows 2 0).getD 0 pDefault ∈
        filtered_df (generateRows 2 0) [] []
          ((generateRows 2 0).getD 0 pDefault).age
          ((generateRows 2 0).getD 0 pDefault).age) ∧
    filtered_df (generateRows 2 0) [] []
      (age_range_default (generateRows 2 0)).1
      (age_range_default (generateRows 2 0)).2 = generateRows 2 0 :=
  ⟨⟨by decide,
    age_filter_inclusive_and_default_keeps_all.1 _ _ _ _ (by decide)
      le_rfl le_rfl⟩,
   age_filter_inclusive_and_default_keeps_all.2 _⟩

/-- Claim C7: aggregation over an empty filtered table does not fail — the
row count and every per-status count are 0, and the mean fields evaluate
to the defined NaN placeholder (displayed as a string) instead of raising. -/
theorem aggregation_on_empty_filtered (t : List Patient)
    (depts : List Department) (stats : List Status) (lo hi : Int)
    (h : filtered_df t depts stats lo hi = []) :
    totalPatients (filtered_df t depts stats lo hi) = 0 ∧
    (∀ st, statusCount (filtered_df t depts stats lo hi) st = 0) ∧
    avg_age (filtered_df t depts stats lo hi) = none ∧
    avg_stay (filtered_df t depts stats lo hi) = none ∧
    displayMean (avg_age (filtered_df t depts stats lo hi)) = "nan" ∧
    displayMean (avg_stay (filtered_df t depts stats lo hi)) = "nan" := by
  rw [h]
  exact ⟨rfl, fun st => rfl, rfl, rfl, rfl, rfl⟩

/-- Witness for C7 at a concrete empty filtered table. -/
theorem aggregation_on_empty_filtered_witness :
    totalPatients (filtered_df [] [] [] 0 0) = 0 ∧
    avg_age (filtered_df [] [] [] 0 0) = none ∧
    displayMean (avg_age (filtered_df [] [] [] 0 0)) = "nan" :=
  ⟨(aggregation_on_empty_filtered [] [] [] 0 0 rfl).1,
   (aggregation_on_empty_filtered [] [] [] 0 0 rfl).2.2.1,
   (aggregation_on_empty_filtered [] [] [] 0 0 rfl).2.2.2.2.1⟩

/-- Claim C8: running the filter pipeline never mutates the source table —
the session's table is unchanged in every field of every row, and the
filtered result is a derived view (a sublist of the source). -/
theorem filtering_preserves_source_table (st : DashState)
    (depts : List Department) (stats : List Status) (lo hi : Int) :
    (applyFiltersStep st depts stats lo hi).df = st.df ∧
    ((applyFiltersStep st depts stats lo hi).filtered).Sublist st.df := by
  refine ⟨rfl, ?_⟩
  show (filtered_df st.df depts stats lo hi).Sublist st.df
  rw [filtered_df_eq_filter]
  exact List.filter_sublist _

/-- Claim C9: for N = 100 with the fixed seed, no department or status
selection, and the age range at its observed min/max default, the
total-patients indicator is 100 and the three status counts sum to 100
(for any current date). -/
theorem end_to_end_counts_n100 (today : Int) (t : List Patient)
    (hgen : generate_test_data 100 today = Except.ok t) :
    totalPatients (filtered_df t [] [] (age_range_default t).1
      (age_range_default t).2) = 100 ∧
    statusCount (filtered_df t [] [] (age_range_default t).1
        (age_range_default t).2) Status.stable +
      statusCount (filtered_df t [] [] (age_range_default t).1
        (age_range_default t).2) Status.attention +
      statusCount (filtered_df t [] [] (age_range_default t).1
        (age_range_default t).2) Status.critical = 100 := by
  rw [generate_test_data_ok 100 today t hgen, filtered_df_default_keeps_all]
  constructor
  · exact generateRows_length _ today
  · rw [statusCount_partition]
    exact generateRows_length _ today

/-- Witness for C9 with the generation date fixed to day 0. -/
theorem end_to_end_counts_n100_witness :
    totalPatients (filtered_df (generateRows 100 0) [] []
      (age_range_default (generateRows 100 0)).1
      (age_range_default (generateRows 100 0)).2) = 100 ∧
    statusCount (filtered_df (generateRows 100 0) [] []
        (age_range_default (generateRows 100 0)).1
        (age_range_default (generateRows 100 0)).2) Status.stable +
      statusCount (filtered_df (generateRows 100 0) [] []
        (age_range_default (generateRows 100 0)).1
        (age_range_default (generateRows 100 0)).2) Status.attention +
      statusCount (filtered_df (generateRows 100 0) [] []
        (age_range_default (generateRows 100 0)).1
        (age_range_default (generateRows 100 0)).2) Status.critical = 100 :=
  end_to_end_counts_n100 0 (generateRows 100 0) rfl

/-- Claim C10: every generated record with status Needs Attention also has
its remaining vitals range-bounded: heart_rate ∈ [90,110),
blood_pressure_systolic ∈ [110,150), blood_pressure_diastolic ∈ [70,95). -/
theorem attention_other_vitals_in_range (n today : Int)
    (t : List Patient) (p : Patient)
    (hgen : generate_test_data n today = Except.ok t) (hp : p ∈ t)
    (hst : p.status = Status.attention) :
    90 ≤ p.heart_rate ∧ p.heart_rate < 110 ∧
    110 ≤ p.blood_pressure_systolic ∧ p.blood_pressure_systolic < 150 ∧
    70 ≤ p.blood_pressure_diastolic ∧ p.blood_pressure_diastolic < 95 := by
  rw [generate_test_data_ok n today t hgen] at hp
  obtain ⟨⟨v, s0, hhr, hsys, hdia, htmp, hoxy⟩, hage⟩ :=
    generateRows_mem _ _ _ hp
  rw [hst] at hhr hsys hdia
  obtain ⟨h1, h2, h3, h4, h5, h6, -, -, -, -⟩ :=
    overwriteVitals_attention v s0
  rw [hhr, hsys, hdia]
  exact ⟨h1, h2, h3, h4, h5, h6⟩

/-- Witness for C10: in the table generated with N = 2 on day 0, the first
row has status Needs Attention, and its remaining vitals satisfy the
claimed ranges. -/
theorem attention_other_vitals_in_range_witness :
    ((generateRows 2 0).getD 0 pDefault).status = Status.attention ∧
    (90 ≤ ((generateRows 2 0).getD 0 pDefault).heart_rate ∧
      ((generateRows 2 0).getD 0 pDefault).heart_rate < 110 ∧
      110 ≤ ((generateRows 2 0).getD 0 pDefault).blood_pressure_systolic ∧
      ((generateRows 2 0).getD 0 pDefault).blood_pressure_systolic < 150 ∧
      70 ≤ ((generateRows 2 0).getD 0 pDefault).blood_pressure_diastolic ∧
      ((generateRows 2 0).getD 0 pDefault).blood_pressure_diastolic < 95) :=
  ⟨by decide,
   attention_other_vitals_in_range 2 0 (generateRows 2 0)
     ((generateRows 2 0).getD 0 pDefault) rfl (by decide) (by decide)⟩
